import Mathlib

/-!
Verification development for the SystemdSvcStatus repository.

The repository has two cooperating daemons:

* `src/mirfatif/systemd_svc_status/systemd_svc_watcher.py` — the watcher:
  subscribes to the systemd manager's `JobRemoved` signal, resolves
  `ActiveState`/`SubState` of the unit, applies a blocklist suppression
  filter, and sends a deduplicated notification request to the relay.
* `sys_desk_notif_d.py` — the relay: receives notification request
  dictionaries over the bus and forwards them to
  `org.freedesktop.Notifications`, deduplicating by a caller-supplied
  replace key.

The embedding below translates the Python functions into Lean definitions:

* Python `dict` becomes an association list with Python's update semantics
  (`dictGet` / `dictSet`: update in place, append new keys at the end).
* Python `str` operations used by the code (`split('\n')`, `strip()`,
  `startswith`, `removeprefix`, single-character `str.replace`) are
  implemented over `String.data` so that every definition evaluates by
  kernel reduction.
* The bus is an oracle: property reads are a function parameter, the
  desktop notification call's returned id is a per-invocation parameter,
  and `re.compile` / `re.match` are abstracted as a compile oracle
  `String → String → Bool` (a compiled pattern is represented by its
  start-anchored match predicate, which is the semantics of Python's
  `Pattern.match`).
-/

namespace SystemdSvcStatus

/-! ## Python dict model -/

/-- Python `dict.get`: first (and only, keys being unique) binding of `k`. -/
def dictGet {V : Type} : List (String × V) → String → Option V
  | [], _ => none
  | e :: d, k => if e.1 = k then some e.2 else dictGet d k

/-- Python `dict[k] = v`: update the existing binding in place, or append a
new binding at the end (insertion order is preserved, as in CPython). -/
def dictSet {V : Type} : List (String × V) → String → V → List (String × V)
  | [], k, v => [(k, v)]
  | e :: d, k, v => if e.1 = k then (k, v) :: d else e :: dictSet d k v

/-- The keys of a dict, in insertion order. -/
def dictKeys {V : Type} (d : List (String × V)) : List String :=
  d.map Prod.fst

theorem dictGet_dictSet_self {V : Type} (d : List (String × V)) (k : String) (v : V) :
    dictGet (dictSet d k v) k = some v := by
  induction d with
  | nil => simp [dictGet, dictSet]
  | cons e d ih =>
    by_cases h : e.1 = k
    · simp [dictGet, dictSet, h]
    · simp [dictGet, dictSet, h, ih]

theorem dictGet_dictSet_ne {V : Type} (d : List (String × V)) (k k2 : String) (v : V)
    (h : k2 ≠ k) : dictGet (dictSet d k v) k2 = dictGet d k2 := by
  have h2 : ¬(k = k2) := fun he => h he.symm
  induction d with
  | nil => simp [dictGet, dictSet, h2]
  | cons e d ih =>
    by_cases he : e.1 = k
    · have he2 : ¬(e.1 = k2) := by rw [he]; exact h2
      simp [dictGet, dictSet, he, h2, he2]
    · by_cases he2 : e.1 = k2
      · simp [dictGet, dictSet, he, he2, h]
      · simp [dictGet, dictSet, he, he2, ih]

theorem mem_dictKeys_dictSet {V : Type} (d : List (String × V)) (k x : String) (v : V) :
    x ∈ dictKeys (dictSet d k v) ↔ x ∈ dictKeys d ∨ x = k := by
  induction d with
  | nil => simp [dictKeys, dictSet]
  | cons e d ih =>
    by_cases he : e.1 = k
    · simp only [dictSet, if_pos he, dictKeys, List.map_cons, List.mem_cons]
      rw [← he]
      tauto
    · simp only [dictSet, if_neg he, dictKeys, List.map_cons, List.mem_cons]
      simp only [dictKeys] at ih
      rw [ih]
      tauto

theorem nodup_dictKeys_dictSet {V : Type} (d : List (String × V)) (k : String) (v : V)
    (h : (dictKeys d).Nodup) : (dictKeys (dictSet d k v)).Nodup := by
  induction d with
  | nil => simp [dictKeys, dictSet]
  | cons e d ih =>
    simp only [dictKeys, List.map_cons, List.nodup_cons] at h
    by_cases he : e.1 = k
    · simp only [dictSet, if_pos he, dictKeys, List.map_cons, List.nodup_cons]
      refine ⟨?_, h.2⟩
      rw [← he]
      exact h.1
    · simp only [dictSet, if_neg he, dictKeys, List.map_cons, List.nodup_cons]
      refine ⟨fun hmem => ?_, ih h.2⟩
      have hm := (mem_dictKeys_dictSet d k e.1 v).mp (by simpa [dictKeys] using hmem)
      rcases hm with hx | hx
      · exact h.1 (by simpa [dictKeys] using hx)
      · exact he hx

theorem filter_key_eq_nil {V : Type} (d : List (String × V)) (k : String)
    (h : k ∉ dictKeys d) : d.filter (fun e => e.1 == k) = [] := by
  induction d with
  | nil => simp
  | cons e d ih =>
    simp only [dictKeys, List.map_cons, List.mem_cons, not_or] at h
    have he : (e.1 == k) = false := by
      simp only [beq_eq_false_iff_ne, ne_eq]
      exact fun hx => h.1 hx.symm
    simp only [List.filter_cons, he, Bool.false_eq_true, if_false]
    exact ih (by simpa [dictKeys] using h.2)

theorem filter_key_dictSet_length {V : Type} (d : List (String × V)) (k : String) (v : V)
    (h : (dictKeys d).Nodup) :
    ((dictSet d k v).filter (fun e => e.1 == k)).length = 1 := by
  induction d with
  | nil => simp [dictSet]
  | cons e d ih =>
    simp only [dictKeys, List.map_cons, List.nodup_cons] at h
    by_cases he : e.1 = k
    · have hnil : d.filter (fun x => x.1 == k) = [] := by
        refine filter_key_eq_nil d k ?_
        rw [← he]
        simpa [dictKeys] using h.1
      simp [dictSet, if_pos he, List.filter_cons, hnil]
    · have hne : (e.1 == k) = false := by
        simp only [beq_eq_false_iff_ne, ne_eq]
        exact he
      simp only [dictSet, if_neg he, List.filter_cons, hne, Bool.false_eq_true, if_false]
      exact ih h.2

/-! ## Python string operations, modelled over `String.data` -/

/-- Python `str.split(sep)` for a single-character separator: splitting the
empty string yields `[""]`, and a trailing separator yields a trailing
empty chunk, exactly as in CPython. -/
def pySplitChar (sep : Char) : List Char → List (List Char)
  | [] => [[]]
  | c :: rest =>
    match pySplitChar sep rest with
    | [] => [[]]
    | cur :: others =>
      if c = sep then [] :: cur :: others else (c :: cur) :: others

/-- The whitespace characters removed by Python `str.strip()`. -/
def isPySpace (c : Char) : Bool :=
  c == ' ' || c == '\t' || c == '\n' || c == '\x0d' ||
    c == Char.ofNat 11 || c == Char.ofNat 12

/-- Python `str.strip()`. -/
def pyStrip (s : List Char) : List Char :=
  ((s.dropWhile isPySpace).reverse.dropWhile isPySpace).reverse

/-- Python `str.startswith(pat)`, first argument the string, second the
pattern. -/
def listStartsWith : List Char → List Char → Bool
  | _, [] => true
  | [], _ :: _ => false
  | c :: s, p :: ps => c == p && listStartsWith s ps

/-- Python `s.split('\n')` on `String`. -/
def strSplitNl (s : String) : List String :=
  (pySplitChar '\n' s.data).map String.mk

/-- Python `s.strip()` on `String`. -/
def strStrip (s : String) : String :=
  ⟨pyStrip s.data⟩

/-- Python `s.startswith(p)` on `String`. -/
def strStartsWith (s p : String) : Bool :=
  listStartsWith s.data p.data

/-- Python `s.removeprefix(p)` for a prefix already known to be present: drop
`n` characters. -/
def strDropN (s : String) (n : Nat) : String :=
  ⟨s.data.drop n⟩

/-- Python `'|'.join(xs)`. -/
def strJoinBar (xs : List String) : String :=
  ⟨List.intercalate ['|'] (xs.map String.data)⟩

/-! ## Unit name escaping (`systemd_svc_watcher.py`, `SVC_PATH_REPLACEMENTS`)

The watcher escapes a unit name before building the unit's object path:

```
SVC_PATH_REPLACEMENTS = {'_': '_5f', '-': '_2d', '.': '_2e', '/': '_2f',
                         ':': '_3a', '@': '_40', '\\': '_5c'}
for frm, to in SVC_PATH_REPLACEMENTS.items():
    unit = unit.replace(frm, to)
```

Each pattern is one character, so each `str.replace` is a character-wise
substitution; the replacements are applied sequentially in the dict's
insertion order, with `'_'` first.
-/

/-- Python's `str.replace(pat, rep)` specialised to a
single-character pattern: replace every occurrence of `pat` by `rep`. -/
def strReplaceChar : List Char → Char → List Char → List Char
  | [], _, _ => []
  | c :: s, pat, rep => (if c = pat then rep else [c]) ++ strReplaceChar s pat rep

/-- The `SVC_PATH_REPLACEMENTS` table, in source (insertion) order. -/
def SVC_PATH_REPLACEMENTS : List (Char × List Char) :=
  [('_', ['_', '5', 'f']),
   ('-', ['_', '2', 'd']),
   ('.', ['_', '2', 'e']),
   ('/', ['_', '2', 'f']),
   (':', ['_', '3', 'a']),
   ('@', ['_', '4', '0']),
   ('\\', ['_', '5', 'c'])]

/-- The escaping loop of `handle_dbus_signal`: apply each single-character
replacement of `SVC_PATH_REPLACEMENTS` in order. -/
def escapeUnit (u : List Char) : List Char :=
  SVC_PATH_REPLACEMENTS.foldl (fun s pr => strReplaceChar s pr.1 pr.2) u

/-- The character-wise reading of the table: what one source character
contributes to the escaped name. -/
def escChar (c : Char) : List Char :=
  if c = '_' then ['_', '5', 'f']
  else if c = '-' then ['_', '2', 'd']
  else if c = '.' then ['_', '2', 'e']
  else if c = '/' then ['_', '2', 'f']
  else if c = ':' then ['_', '3', 'a']
  else if c = '@' then ['_', '4', '0']
  else if c = '\\' then ['_', '5', 'c']
  else [c]

/-- Modelled from the spec: the inverse direction of the fixed bidirectional
table ("the escape/unescape mapping ... must be applied consistently in both
directions"). The repository itself never unescapes (systemd resolves the
path); decoding reads left to right, every `'_'` starting a two-digit code
because `'_'` itself is always escaped. -/
def hexVal? (a b : Char) : Option Char :=
  if a == '5' && b == 'f' then some '_'
  else if a == '2' && b == 'd' then some '-'
  else if a == '2' && b == 'e' then some '.'
  else if a == '2' && b == 'f' then some '/'
  else if a == '3' && b == 'a' then some ':'
  else if a == '4' && b == '0' then some '@'
  else if a == '5' && b == 'c' then some '\\'
  else none

/-- Modelled from the spec: left-to-right decoder for the escaping above. -/
def unescapeUnit : List Char → List Char
  | [] => []
  | c :: a :: b :: rest =>
    if c = '_' then
      match hexVal? a b with
      | some d => d :: unescapeUnit rest
      | none => '_' :: unescapeUnit (a :: b :: rest)
    else c :: unescapeUnit (a :: b :: rest)
  | c :: rest => c :: unescapeUnit rest

theorem strReplaceChar_append (a b : List Char) (pat : Char) (rep : List Char) :
    strReplaceChar (a ++ b) pat rep = strReplaceChar a pat rep ++ strReplaceChar b pat rep := by
  induction a with
  | nil => rfl
  | cons c a ih => simp [strReplaceChar, ih]

theorem escapeUnit_append (a b : List Char) :
    escapeUnit (a ++ b) = escapeUnit a ++ escapeUnit b := by
  simp [escapeUnit, SVC_PATH_REPLACEMENTS, strReplaceChar_append]

theorem escapeUnit_single (c : Char) : escapeUnit [c] = escChar c := by
  by_cases h1 : c = '_'
  · subst h1; rfl
  by_cases h2 : c = '-'
  · subst h2; rfl
  by_cases h3 : c = '.'
  · subst h3; rfl
  by_cases h4 : c = '/'
  · subst h4; rfl
  by_cases h5 : c = ':'
  · subst h5; rfl
  by_cases h6 : c = '@'
  · subst h6; rfl
  by_cases h7 : c = '\\'
  · subst h7; rfl
  simp [escapeUnit, SVC_PATH_REPLACEMENTS, strReplaceChar, escChar,
    h1, h2, h3, h4, h5, h6, h7]

theorem escapeUnit_cons (c : Char) (u : List Char) :
    escapeUnit (c :: u) = escChar c ++ escapeUnit u := by
  have h : (c :: u) = [c] ++ u := rfl
  rw [h, escapeUnit_append, escapeUnit_single]

theorem unescapeUnit_code (x y d : Char) (rest : List Char)
    (h : hexVal? x y = some d) :
    unescapeUnit ('_' :: x :: y :: rest) = d :: unescapeUnit rest := by
  simp [unescapeUnit, h]

theorem unescapeUnit_plain (c : Char) (rest : List Char) (h : ¬(c = '_')) :
    unescapeUnit (c :: rest) = c :: unescapeUnit rest := by
  match rest with
  | [] => simp [unescapeUnit, h]
  | [a] => simp [unescapeUnit, h]
  | a :: b :: r => simp [unescapeUnit, h]

theorem unescapeUnit_escapeUnit (u : List Char) :
    unescapeUnit (escapeUnit u) = u := by
  induction u with
  | nil => rfl
  | cons c u ih =>
    rw [escapeUnit_cons]
    by_cases h1 : c = '_'
    · subst h1
      rw [show escChar '_' ++ escapeUnit u = '_' :: '5' :: 'f' :: escapeUnit u from rfl,
        unescapeUnit_code '5' 'f' '_' _ rfl, ih]
    by_cases h2 : c = '-'
    · subst h2
      rw [show escChar '-' ++ escapeUnit u = '_' :: '2' :: 'd' :: escapeUnit u from rfl,
        unescapeUnit_code '2' 'd' '-' _ rfl, ih]
    by_cases h3 : c = '.'
    · subst h3
      rw [show escChar '.' ++ escapeUnit u = '_' :: '2' :: 'e' :: escapeUnit u from rfl,
        unescapeUnit_code '2' 'e' '.' _ rfl, ih]
    by_cases h4 : c = '/'
    · subst h4
      rw [show escChar '/' ++ escapeUnit u = '_' :: '2' :: 'f' :: escapeUnit u from rfl,
        unescapeUnit_code '2' 'f' '/' _ rfl, ih]
    by_cases h5 : c = ':'
    · subst h5
      rw [show escChar ':' ++ escapeUnit u = '_' :: '3' :: 'a' :: escapeUnit u from rfl,
        unescapeUnit_code '3' 'a' ':' _ rfl, ih]
    by_cases h6 : c = '@'
    · subst h6
      rw [show escChar '@' ++ escapeUnit u = '_' :: '4' :: '0' :: escapeUnit u from rfl,
        unescapeUnit_code '4' '0' '@' _ rfl, ih]
    by_cases h7 : c = '\\'
    · subst h7
      rw [show escChar '\\' ++ escapeUnit u = '_' :: '5' :: 'c' :: escapeUnit u from rfl,
        unescapeUnit_code '5' 'c' '\\' _ rfl, ih]
    have he : escChar c = [c] := by
      simp [escChar, h1, h2, h3, h4, h5, h6, h7]
    rw [he, show ([c] ++ escapeUnit u) = c :: escapeUnit u from rfl,
      unescapeUnit_plain c _ h1, ih]

/-- The escaping on `String` as used for object-path construction. -/
def escapeStr (s : String) : String :=
  ⟨escapeUnit s.data⟩

/-- The decoder on `String`. -/
def unescapeStr (s : String) : String :=
  ⟨unescapeUnit s.data⟩

theorem unescapeStr_escapeStr (s : String) : unescapeStr (escapeStr s) = s := by
  have h : unescapeUnit (escapeUnit s.data) = s.data := unescapeUnit_escapeUnit s.data
  have h2 : unescapeStr (escapeStr s) = ⟨unescapeUnit (escapeUnit s.data)⟩ := rfl
  rw [h2, h]

/-! ## The watcher (`systemd_svc_status/systemd_svc_watcher.py`)

`handle_dbus_signal(*args)` receives the `JobRemoved` signal
`(u id, o job, s unit, s result)`; validates the shape (exactly four
fields, `args[1]` a `dbus.ObjectPath`, `args[2]` a `dbus.String`);
escapes the unit name to build the unit object path; reads `ActiveState`
and `SubState` over the bus; builds the message; either ignores the event
(active, or inactive and blocklisted) or notifies the relay, creating the
per-unit replace key `str(os.getpid()) + '|' + unit` on first use.
-/

/-- A positional D-Bus signal argument, by its dbus-python runtime type. -/
inductive DBusVal where
  | objectPath (s : String)
  | string (s : String)
  | uint32 (n : Nat)
  | other
deriving DecidableEq

/-- The shape check of `handle_dbus_signal`: exactly four fields,
`args[1]` a `dbus.ObjectPath`, `args[2]` a `dbus.String`; yields the unit
name `args[2]`. -/
def parse_signal : List DBusVal → Option String
  | [_, DBusVal.objectPath _, DBusVal.string unit, _] => some unit
  | _ => none

/-- The arguments of one `notify_deskd.notify_proxy(...)` call (the
`sys_bus` handle is not data). -/
structure NotifCall where
  replace_old : String
  app_icon : String
  summary : String
  body : String
  timeout : Int
deriving DecidableEq

/-- Ambient process facts the handler reads: the bus property-get oracle
(`bus.call_blocking(object_path, 'Get', (interface, property))` returning
the property value) and `os.getpid()`. -/
structure WatchEnv where
  getProp : String → String → String
  pid : Nat

/-- The watcher's global mutable state: `black_list`, `black_list_regex`
(a compiled pattern represented by its start-anchored match predicate, the
semantics of `Pattern.match`), and `notif_ids`. -/
structure WatchState where
  black_list : List String
  black_list_regex : Option (String → Bool)
  notif_ids : List (String × String)

/-- One handler invocation's observable outcome: lines printed, the
`notif_ids` dict afterwards, and the relay call made (if any). -/
structure HandlerResult where
  logs : List String
  notifIds : List (String × String)
  call : Option NotifCall
deriving DecidableEq

/-- The path `SYS_D_PATH + '/unit/' + unit` with `unit` already escaped. -/
def unitPath (unit : String) : String :=
  "/org/freedesktop/systemd1/unit/" ++ escapeStr unit

/-- The message `msg = unit + ' becomes ' + state`, plus `f' ({sub_state})'` when
`state != sub_state`. -/
def mkMsg (unit state sub_state : String) : String :=
  let msg := unit ++ " becomes " ++ state
  if state ≠ sub_state then msg ++ " (" ++ sub_state ++ ")" else msg

/-- The test `black_list_regex and black_list_regex.match(unit)` as a Bool:
`None` is falsy, a compiled pattern matches from the start of the name. -/
def regexTest (rex : Option (String → Bool)) (unit : String) : Bool :=
  match rex with
  | some f => f unit
  | none => false

/-- The ignore condition of `handle_dbus_signal`:
`state == 'active' or (state == 'inactive' and (unit in black_list or
(black_list_regex and black_list_regex.match(unit))))`. -/
def ignoredCond (st : WatchState) (unit state : String) : Bool :=
  state == "active" ||
    (state == "inactive" && (st.black_list.contains unit || regexTest st.black_list_regex unit))

/-- The watcher's `handle_dbus_signal(*args)`. -/
def handle_dbus_signal (env : WatchEnv) (st : WatchState) (args : List DBusVal) :
    HandlerResult :=
  if args.isEmpty then ⟨["Empty signal received"], st.notif_ids, none⟩
  else
    match parse_signal args with
    | none => ⟨["Bad signal"], st.notif_ids, none⟩
    | some unit =>
      let state := env.getProp (unitPath unit) "ActiveState"
      let sub_state := env.getProp (unitPath unit) "SubState"
      let msg := mkMsg unit state sub_state
      if ignoredCond st unit state then
        ⟨["Ignoring: " ++ msg], st.notif_ids, none⟩
      else
        match dictGet st.notif_ids unit with
        | some nid =>
          if nid = "" then
            let fresh := toString env.pid ++ "|" ++ unit
            ⟨[msg], dictSet st.notif_ids unit fresh,
              some ⟨fresh, "text-x-systemd-unit", "Service state changed", msg, 0⟩⟩
          else
            ⟨[msg], st.notif_ids,
              some ⟨nid, "text-x-systemd-unit", "Service state changed", msg, 0⟩⟩
        | none =>
          let fresh := toString env.pid ++ "|" ++ unit
          ⟨[msg], dictSet st.notif_ids unit fresh,
            some ⟨fresh, "text-x-systemd-unit", "Service state changed", msg, 0⟩⟩

/-! ## `load_config()` of the watcher

Reads the blocklist file, clears `black_list`, classifies each stripped
line (`#` comment / `REGEX|` fragment / exact string), and compiles the
joined fragments — only when at least one fragment is present — into
`black_list_regex`. `re.compile` is abstracted by the oracle `cmp`
mapping a pattern source to its start-anchored match predicate.
-/

/-- The `for line in file.read().split('\n')` loop body of `load_config`,
folded over the lines: accumulates `(black_list, black_list_re)`. -/
def load_lines (lines : List String) : List String × List String :=
  lines.foldl
    (fun acc l =>
      let line := strStrip l
      if strStartsWith line "#" then acc
      else if strStartsWith line "REGEX|" then (acc.1, acc.2 ++ [strDropN line 6])
      else (acc.1 ++ [line], acc.2))
    ([], [])

/-- The watcher's `load_config()` on a successfully read file content: clears
`black_list`, rebuilds it from the file, and reassigns `black_list_regex`
only when the file contributed at least one `REGEX|` fragment. -/
def load_config (cmp : String → String → Bool) (content : String) (st : WatchState) :
    WatchState :=
  let res := load_lines (strSplitNl content)
  { black_list := res.1
    black_list_regex :=
      if res.2.isEmpty then st.black_list_regex else some (cmp (strJoinBar res.2))
    notif_ids := st.notif_ids }

/-! ## The relay (`sys_desk_notif_d.py`)

`handle_dbus_signal(*args)` of the relay receives one `dbus.Dictionary`,
extracts the request fields with `get_notif_str` / `get_notif_int`
(defaulting malformed fields, warning on truthy bad values), substitutes a
remembered numeric id for a zero `replace_id` with a previously seen
`replace_old` key, forwards the 8-tuple to
`org.freedesktop.Notifications.Notify`, and stores the returned id under
the key. The desktop call's returned id is supplied per invocation as
`desktopRet` (the oracle response for this one blocking call).
-/

namespace Relay

/-- A dbus-python value as the relay's duck typing distinguishes them. -/
inductive PyVal where
  | str (s : String)
  | int (n : Int)
  | dict (entries : List (String × PyVal))
  | other

/-- Python truthiness of an optional dict value (`None`, `''`, `0` and an
empty dict are falsy; other objects are truthy). -/
def truthy : Option PyVal → Bool
  | none => false
  | some (PyVal.str s) => !(s == "")
  | some (PyVal.int n) => !(n == 0)
  | some (PyVal.dict d) => !d.isEmpty
  | some PyVal.other => true

/-- The relay's `get_notif_str(d, key)`: a non-empty string value is returned;
anything else yields `''`, with `Bad <key>` printed when the value is
truthy. The pair is (result, warning). -/
def get_notif_str (d : List (String × PyVal)) (key : String) : String × Option String :=
  match dictGet d key with
  | some (PyVal.str s) =>
    if !(s == "") then (s, none)
    else ("", none)
  | v => ("", if truthy v then some ("Bad " ++ key) else none)

/-- The relay's `get_notif_int(d, key, default, multiplier)`: a non-negative int value
is returned times `multiplier`; anything else yields `default`, with
`Bad <key>` printed when the value is truthy. -/
def get_notif_int (d : List (String × PyVal)) (key : String) (dflt : Int) (multiplier : Int) :
    Int × Option String :=
  match dictGet d key with
  | some (PyVal.int i) =>
    if 0 ≤ i then (i * multiplier, none)
    else (dflt, if truthy (some (PyVal.int i)) then some ("Bad " ++ key) else none)
  | v => (dflt, if truthy v then some ("Bad " ++ key) else none)

/-- The argument tuple forwarded to
`org.freedesktop.Notifications.Notify` (the actions list and hints dict
are always empty and carry no data). -/
structure ForwardCall where
  app_name : String
  replace_id : Int
  app_icon : String
  summary : String
  body : String
  timeout : Int
deriving DecidableEq

/-- One relay invocation's outcome: warnings printed, `NOTIF_IDS`
afterwards, and the forwarded desktop call (if any). -/
structure RelayResult where
  warns : List String
  notif_ids : List (String × Nat)
  forwarded : Option ForwardCall

/-- A warning option as printed lines. -/
def optWarn : Option String → List String
  | some s => [s]
  | none => []

/-- The relay's `handle_dbus_signal(*args)`; `desktopRet` is the id the
desktop `Notify` call returns for this invocation. -/
def handle_dbus_signal (desktopRet : Nat) (ids : List (String × Nat)) (args : List PyVal) :
    RelayResult :=
  match args with
  | [] => ⟨[], ids, none⟩
  | [PyVal.dict req] =>
    let app_name := get_notif_str req "app_name"
    let replace_id0 := get_notif_int req "replace_id" 0 1
    let replace_old := get_notif_str req "replace_old"
    let app_icon := get_notif_str req "app_icon"
    let summary := get_notif_str req "summary"
    let body := get_notif_str req "body"
    let timeout := get_notif_int req "timeout" (-1) 1000
    let warns := optWarn app_name.2 ++ optWarn replace_id0.2 ++ optWarn replace_old.2 ++
      optWarn app_icon.2 ++ optWarn summary.2 ++ optWarn body.2 ++ optWarn timeout.2
    let replace_id :=
      if replace_id0.1 == 0 && !(replace_old.1 == "") then
        match dictGet ids replace_old.1 with
        | some nid => if !(nid == 0) then (nid : Int) else replace_id0.1
        | none => replace_id0.1
      else replace_id0.1
    let nid := desktopRet
    let ids2 :=
      if !(replace_old.1 == "") && !(nid == 0) then dictSet ids replace_old.1 nid else ids
    ⟨warns, ids2,
      some ⟨app_name.1, replace_id, app_icon.1, summary.1, body.1, timeout.1⟩⟩
  | _ => ⟨["Bad request"], ids, none⟩

end Relay

/-! ## Concrete inputs used by witnesses and counterexamples -/

/-- A well-shaped `JobRemoved` signal for `unit`:
`(u id, o job, s unit, s result)`. -/
def jobArgs (unit : String) : List DBusVal :=
  [DBusVal.uint32 7, DBusVal.objectPath "/j", DBusVal.string unit, DBusVal.string "done"]

/-- A watcher state with empty blocklist, no regex, no notification keys. -/
def emptyState : WatchState :=
  ⟨[], none, []⟩

/-- A bus oracle resolving every property to "active", pid 1. -/
def activeEnv : WatchEnv :=
  ⟨fun _ _ => "active", 1⟩

/-- A bus oracle resolving every property to "inactive", pid 1. -/
def inactiveEnv : WatchEnv :=
  ⟨fun _ _ => "inactive", 1⟩

/-- A bus oracle resolving every property to "failed", pid 42. -/
def failedEnv : WatchEnv :=
  ⟨fun _ _ => "failed", 42⟩

/-- A `re.compile` oracle: the compiled pattern matches exactly the
pattern source itself. -/
def eqCmp : String → String → Bool :=
  fun p u => decide (p = u)

/-! ## C1 -/

/-- C1 counterexample: a delivered event whose resolved `active_state` is
`"active"`, with an empty blocklist (the unit is in no exact list and no
regex exists), is nonetheless logged as ignored and no notification is
issued — refuting "a notification is issued regardless of blocklist
membership". -/
theorem C1_counterexample :
    (handle_dbus_signal activeEnv emptyState (jobArgs "a.service")).call = none ∧
    (handle_dbus_signal activeEnv emptyState (jobArgs "a.service")).logs =
      ["Ignoring: a.service becomes active"] :=
  ⟨rfl, rfl⟩

/-- C1 (amended): for every delivered unit transition event whose resolved
`active_state` equals `"active"`, the handler always suppresses the event,
regardless of blocklist membership: it logs the message at the "Ignoring"
level, issues no notification, and leaves `notif_ids` unchanged. -/
theorem C1_active_always_ignored (env : WatchEnv) (st : WatchState) (a0 a3 : DBusVal)
    (p u : String) (h : env.getProp (unitPath u) "ActiveState" = "active") :
    handle_dbus_signal env st [a0, DBusVal.objectPath p, DBusVal.string u, a3] =
      ⟨["Ignoring: " ++ mkMsg u "active" (env.getProp (unitPath u) "SubState")],
        st.notif_ids, none⟩ := by
  have hp : parse_signal [a0, DBusVal.objectPath p, DBusVal.string u, a3] = some u := rfl
  simp [handle_dbus_signal, hp, h, ignoredCond]

/-- C1 witness: the amended theorem at a concrete active event. -/
theorem C1_active_always_ignored_witness :
    handle_dbus_signal activeEnv emptyState (jobArgs "b.service") =
      ⟨["Ignoring: b.service becomes active"], [], none⟩ :=
  C1_active_always_ignored activeEnv emptyState (DBusVal.uint32 7) (DBusVal.string "done")
    "/j" "b.service" rfl

/-! ## C5 -/

/-- C5: for every delivered event with resolved `active_state`
`"inactive"` whose unit is in the exact blocklist or matched by the
compiled regex (a compiled `Pattern.match` predicate, which Python anchors
at the start of the name), the handler suppresses: the event is logged at
the "Ignoring" level, no notification is issued, and `notif_ids` is
unchanged. -/
theorem C5_inactive_blocklisted_suppressed (env : WatchEnv) (st : WatchState)
    (a0 a3 : DBusVal) (p u : String)
    (hstate : env.getProp (unitPath u) "ActiveState" = "inactive")
    (hmatch : (st.black_list.contains u || regexTest st.black_list_regex u) = true) :
    handle_dbus_signal env st [a0, DBusVal.objectPath p, DBusVal.string u, a3] =
      ⟨["Ignoring: " ++ mkMsg u "inactive" (env.getProp (unitPath u) "SubState")],
        st.notif_ids, none⟩ := by
  have hp : parse_signal [a0, DBusVal.objectPath p, DBusVal.string u, a3] = some u := rfl
  have hig : ignoredCond st u "inactive" = true := by
    simp only [ignoredCond, hmatch]
    rfl
  simp [handle_dbus_signal, hp, hstate, hig]

/-- C5 witness: a blocklisted unit going inactive is suppressed. -/
theorem C5_inactive_blocklisted_suppressed_witness :
    handle_dbus_signal inactiveEnv ⟨["c.service"], none, []⟩ (jobArgs "c.service") =
      ⟨["Ignoring: c.service becomes inactive"], [], none⟩ :=
  C5_inactive_blocklisted_suppressed inactiveEnv ⟨["c.service"], none, []⟩
    (DBusVal.uint32 7) (DBusVal.string "done") "/j" "c.service" rfl (by decide)

/-! ## C6 -/

/-- C6: escaping a unit name through the fixed substitution table (each
single-character replacement applied once, in the table's insertion order,
never re-escaping characters introduced by the substitution) then
unescaping through the same table yields the original name; consequently
the escape map is injective and distinct units get distinct object paths. -/
theorem C6_escape_roundtrip :
    (∀ u : String, unescapeStr (escapeStr u) = u) ∧
    (∀ u v : String, escapeStr u = escapeStr v → u = v) ∧
    (∀ u v : String, unitPath u = unitPath v → u = v) := by
  have hrt : ∀ u : String, unescapeStr (escapeStr u) = u := unescapeStr_escapeStr
  have hinj : ∀ u v : String, escapeStr u = escapeStr v → u = v := by
    intro u v h
    have h2 := congrArg unescapeStr h
    rwa [hrt, hrt] at h2
  refine ⟨hrt, hinj, fun u v h => ?_⟩
  apply hinj
  have hd := congrArg String.data h
  simp only [unitPath, String.data_append] at hd
  exact congrArg String.mk (List.append_cancel_left hd)

/-- C6 witness: the round trip on a name containing every escaped
character, and injectivity discharged at a concrete pair. -/
theorem C6_escape_roundtrip_witness :
    unescapeStr (escapeStr "dev-disk_by.x:y@z/\\w.mount") = "dev-disk_by.x:y@z/\\w.mount" ∧
    ("a.service" : String) = "a.service" :=
  ⟨C6_escape_roundtrip.1 "dev-disk_by.x:y@z/\\w.mount",
    C6_escape_roundtrip.2.1 "a.service" "a.service" rfl⟩

/-! ## C2 -/

/-- C2: the reload slip evaluated. Generation G1 is the file `REGEX|a`
(regex suppressing `"a"`, empty exact list); generation G2 is the file
`b` (exact entry `"b"`, no regex lines). After reloading from G1 to G2,
`black_list` is G2's but `black_list_regex` is still G1's compiled
pattern — `load_config` never resets it when the new file contributes no
`REGEX|` lines — so a subsequent inactive event for `"a"` is suppressed by
G1's regex paired with G2's exact set, the hybrid the claim rules out. -/
theorem C2_stale_regex_after_reload :
    (load_config eqCmp "b" (load_config eqCmp "REGEX|a" emptyState)).black_list = ["b"] ∧
    regexTest
      (load_config eqCmp "b" (load_config eqCmp "REGEX|a" emptyState)).black_list_regex
      "a" = true ∧
    (handle_dbus_signal inactiveEnv
      (load_config eqCmp "b" (load_config eqCmp "REGEX|a" emptyState))
      (jobArgs "a")).call = none ∧
    (handle_dbus_signal inactiveEnv
      (load_config eqCmp "b" (load_config eqCmp "REGEX|a" emptyState))
      (jobArgs "a")).logs = ["Ignoring: a becomes inactive"] :=
  ⟨rfl, rfl, rfl, rfl⟩

/-! ## C9 -/

/-- C9 counterexample: loading the two-line content `"a\n"` (an entry and
a final newline, i.e. a blank last line) yields the exact set
`["a", ""]` — the blank line is appended as an empty exact entry,
refuting "the exact set produced by load contains only non-empty,
non-comment lines". -/
theorem C9_counterexample :
    (load_config eqCmp "a\n" emptyState).black_list = ["a", ""] :=
  rfl

/-- The classifying characterization of the `load_config` line loop:
comment lines vanish, `REGEX|` lines contribute exactly their marker-less
remainder to the fragments, and every other stripped line — blank lines
included — lands in the exact list. -/
theorem load_lines_characterization (lines : List String) :
    load_lines lines =
      ((lines.map strStrip).filter
          (fun l => !strStartsWith l "#" && !strStartsWith l "REGEX|"),
        (((lines.map strStrip).filter
          (fun l => !strStartsWith l "#" && strStartsWith l "REGEX|")).map
            (fun l => strDropN l 6))) := by
  suffices h : ∀ (acc : List String × List String),
      lines.foldl
        (fun acc l =>
          let line := strStrip l
          if strStartsWith line "#" then acc
          else if strStartsWith line "REGEX|" then (acc.1, acc.2 ++ [strDropN line 6])
          else (acc.1 ++ [line], acc.2))
        acc =
      (acc.1 ++ (lines.map strStrip).filter
          (fun l => !strStartsWith l "#" && !strStartsWith l "REGEX|"),
        acc.2 ++ (((lines.map strStrip).filter
          (fun l => !strStartsWith l "#" && strStartsWith l "REGEX|")).map
            (fun l => strDropN l 6))) by
    simpa [load_lines] using h ([], [])
  induction lines with
  | nil => intro acc; simp
  | cons l lines ih =>
    intro acc
    simp only [List.foldl_cons, List.map_cons, List.filter_cons]
    by_cases h1 : strStartsWith (strStrip l) "#" = true
    · simp [h1, ih]
    · by_cases h2 : strStartsWith (strStrip l) "REGEX|" = true
      · simp [h1, h2, ih]
      · simp [h1, h2, ih]

/-- C9 (amended): for every file content, comment lines (`#`-prefixed
after stripping) contribute nothing to either field, and no blank line
contributes a regex fragment; but blank lines are appended to the exact
list (the `else` branch catches them), so the exact set is exactly the
stripped lines that are neither comments nor `REGEX|`-marked — empty
strings included. -/
theorem C9_blank_comment_lines (cmp : String → String → Bool) (content : String)
    (st : WatchState) :
    (load_config cmp content st).black_list =
      (((strSplitNl content).map strStrip).filter
        (fun l => !strStartsWith l "#" && !strStartsWith l "REGEX|")) ∧
    (load_lines (strSplitNl content)).2 =
      ((((strSplitNl content).map strStrip).filter
        (fun l => !strStartsWith l "#" && strStartsWith l "REGEX|")).map
          (fun l => strDropN l 6)) := by
  constructor
  · show (load_lines (strSplitNl content)).1 = _
    rw [load_lines_characterization]
  · rw [load_lines_characterization]

/-! ## C4 -/

/-- C4 counterexample: two consecutive notifications for `"u.service"`
(pid 42, state resolving to `"failed"`). The first run stores the locally
generated replace key `"42|u.service"` — built from the pid and unit name
before the relay call — and passes it as the replace target; the second
run leaves the map bit-for-bit unchanged and passes the same key again.
Nothing returned by the relay call is ever recorded (the handler's result
does not depend on any downstream return value), refuting "the value
stored for a unit after a notification is the downstream call's returned
identifier". -/
theorem C4_counterexample :
    (handle_dbus_signal failedEnv emptyState (jobArgs "u.service")).notifIds =
      [("u.service", "42|u.service")] ∧
    (handle_dbus_signal failedEnv emptyState (jobArgs "u.service")).call =
      some ⟨"42|u.service", "text-x-systemd-unit", "Service state changed",
        "u.service becomes failed", 0⟩ ∧
    (handle_dbus_signal failedEnv ⟨[], none, [("u.service", "42|u.service")]⟩
      (jobArgs "u.service")).notifIds = [("u.service", "42|u.service")] ∧
    (handle_dbus_signal failedEnv ⟨[], none, [("u.service", "42|u.service")]⟩
      (jobArgs "u.service")).call =
      some ⟨"42|u.service", "text-x-systemd-unit", "Service state changed",
        "u.service becomes failed", 0⟩ :=
  ⟨rfl, rfl, rfl, rfl⟩

/-- C4 (amended): for every notification the watcher issues, it looks up
or creates the replace key for the unit (`str(os.getpid()) + '|' + unit`),
passes that key to the relay as the replace target (`replace_old`), and
stores that locally generated key — created once and never updated — as
the value for the unit; the relay call's return is discarded (it is the
relay, not the watcher, that records the desktop call's returned id). -/
theorem C4_key_not_relay_id (env : WatchEnv) (st : WatchState) (a0 a3 : DBusVal)
    (p u : String)
    (hig : ignoredCond st u (env.getProp (unitPath u) "ActiveState") = false)
    (hvals : ∀ k v, dictGet st.notif_ids k = some v → v ≠ "") :
    (dictGet st.notif_ids u = none →
      (handle_dbus_signal env st [a0, DBusVal.objectPath p, DBusVal.string u, a3]).call =
        some ⟨toString env.pid ++ "|" ++ u, "text-x-systemd-unit", "Service state changed",
          mkMsg u (env.getProp (unitPath u) "ActiveState")
            (env.getProp (unitPath u) "SubState"), 0⟩ ∧
      (handle_dbus_signal env st [a0, DBusVal.objectPath p, DBusVal.string u, a3]).notifIds =
        dictSet st.notif_ids u (toString env.pid ++ "|" ++ u)) ∧
    (∀ v, dictGet st.notif_ids u = some v →
      (handle_dbus_signal env st [a0, DBusVal.objectPath p, DBusVal.string u, a3]).call =
        some ⟨v, "text-x-systemd-unit", "Service state changed",
          mkMsg u (env.getProp (unitPath u) "ActiveState")
            (env.getProp (unitPath u) "SubState"), 0⟩ ∧
      (handle_dbus_signal env st [a0, DBusVal.objectPath p, DBusVal.string u, a3]).notifIds =
        st.notif_ids) := by
  have hp : parse_signal [a0, DBusVal.objectPath p, DBusVal.string u, a3] = some u := rfl
  constructor
  · intro hnone
    simp [handle_dbus_signal, hp, hig, hnone]
  · intro v hsome
    have hne : v ≠ "" := hvals u v hsome
    simp [handle_dbus_signal, hp, hig, hsome, hne]

/-- C4 witness: the amended theorem at a fresh unit. -/
theorem C4_key_not_relay_id_witness :
    (handle_dbus_signal failedEnv emptyState (jobArgs "w.service")).call =
      some ⟨"42|w.service", "text-x-systemd-unit", "Service state changed",
        "w.service becomes failed", 0⟩ ∧
    (handle_dbus_signal failedEnv emptyState (jobArgs "w.service")).notifIds =
      [("w.service", "42|w.service")] := by
  have h := (C4_key_not_relay_id failedEnv emptyState (DBusVal.uint32 7)
    (DBusVal.string "done") "/j" "w.service" rfl
    (fun k v hkv => by simp [emptyState, dictGet] at hkv)).1 rfl
  exact h

/-! ## C10 -/

/-- C10: frame property of the watcher handler. Whenever no relay call is
made (empty payload, bad shape, or suppression), `notif_ids` is left
unchanged; an existing entry is never overwritten or deleted by any
invocation (given the invariant — true of every reachable state — that
stored values are non-empty); and an entry can appear for a previously
absent key only in an invocation that actually makes a relay call. -/
theorem C10_frame (env : WatchEnv) (st : WatchState) (args : List DBusVal)
    (hvals : ∀ k v, dictGet st.notif_ids k = some v → v ≠ "") :
    ((handle_dbus_signal env st args).call = none →
      (handle_dbus_signal env st args).notifIds = st.notif_ids) ∧
    (∀ k v, dictGet st.notif_ids k = some v →
      dictGet (handle_dbus_signal env st args).notifIds k = some v) ∧
    (∀ k, dictGet st.notif_ids k = none →
      dictGet (handle_dbus_signal env st args).notifIds k ≠ none →
      (handle_dbus_signal env st args).call ≠ none) := by
  by_cases hempty : args.isEmpty
  · refine ⟨fun _ => by simp [handle_dbus_signal, hempty], fun k v h => ?_, fun k h1 h2 => ?_⟩
    · simpa [handle_dbus_signal, hempty] using h
    · have h2x : dictGet st.notif_ids k ≠ none := by
        simpa [handle_dbus_signal, hempty] using h2
      exact absurd h1 h2x
  · cases hps : parse_signal args with
    | none =>
      refine ⟨fun _ => by simp [handle_dbus_signal, hempty, hps], fun k v h => ?_,
        fun k h1 h2 => ?_⟩
      · simpa [handle_dbus_signal, hempty, hps] using h
      · have h2x : dictGet st.notif_ids k ≠ none := by
          simpa [handle_dbus_signal, hempty, hps] using h2
        exact absurd h1 h2x
    | some u =>
      by_cases hig : ignoredCond st u (env.getProp (unitPath u) "ActiveState") = true
      · refine ⟨fun _ => by simp [handle_dbus_signal, hempty, hps, hig], fun k v h => ?_,
          fun k h1 h2 => ?_⟩
        · simpa [handle_dbus_signal, hempty, hps, hig] using h
        · have h2x : dictGet st.notif_ids k ≠ none := by
            simpa [handle_dbus_signal, hempty, hps, hig] using h2
          exact absurd h1 h2x
      · cases hget : dictGet st.notif_ids u with
        | none =>
          refine ⟨fun hc => ?_, fun k v h => ?_, fun k h1 h2 => ?_⟩
          · exact absurd hc (by simp [handle_dbus_signal, hempty, hps, hig, hget])
          · have hku : k ≠ u := fun he => by
              rw [he, hget] at h
              exact Option.noConfusion h
            rw [show (handle_dbus_signal env st args).notifIds =
                dictSet st.notif_ids u (toString env.pid ++ "|" ++ u) by
              simp [handle_dbus_signal, hempty, hps, hig, hget]]
            rw [dictGet_dictSet_ne st.notif_ids u k _ hku]
            exact h
          · simp [handle_dbus_signal, hempty, hps, hig, hget]
        | some nid =>
          have hne : ¬(nid = "") := hvals u nid hget
          refine ⟨fun hc => ?_, fun k v h => ?_, fun k h1 h2 => ?_⟩
          · exact absurd hc (by simp [handle_dbus_signal, hempty, hps, hig, hget, hne])
          · rw [show (handle_dbus_signal env st args).notifIds = st.notif_ids by
              simp [handle_dbus_signal, hempty, hps, hig, hget, hne]]
            exact h
          · simp [handle_dbus_signal, hempty, hps, hig, hget, hne]

/-- C10 witness: a malformed (three-field) signal leaves the key map
unchanged and an existing entry survives. -/
theorem C10_frame_witness :
    (handle_dbus_signal failedEnv ⟨[], none, [("u.service", "42|u.service")]⟩
      [DBusVal.uint32 7, DBusVal.objectPath "/j", DBusVal.string "x"]).notifIds =
      [("u.service", "42|u.service")] ∧
    dictGet (handle_dbus_signal failedEnv ⟨[], none, [("u.service", "42|u.service")]⟩
      [DBusVal.uint32 7, DBusVal.objectPath "/j", DBusVal.string "x"]).notifIds
      "u.service" = some "42|u.service" := by
  have hv : ∀ k v,
      dictGet (⟨[], none, [("u.service", "42|u.service")]⟩ : WatchState).notif_ids k =
        some v → v ≠ "" := by
    intro k v hkv
    by_cases hk : ("u.service" : String) = k
    · simp [dictGet, hk] at hkv
      simp [← hkv]
    · simp [dictGet, hk] at hkv
  have h := C10_frame failedEnv ⟨[], none, [("u.service", "42|u.service")]⟩
    [DBusVal.uint32 7, DBusVal.objectPath "/j", DBusVal.string "x"] hv
  exact ⟨h.1 rfl, h.2.1 "u.service" "42|u.service" rfl⟩

/-! ## C3 -/

/-- Evaluation of the relay handler on a request carrying only a non-empty
`replace_old` key (so `replace_id` defaults to 0 and every other field to
its default). -/
theorem relay_handle_keyOnly (ret : Nat) (ids : List (String × Nat)) (k : String)
    (hk : ¬(k = "")) :
    Relay.handle_dbus_signal ret ids [Relay.PyVal.dict [("replace_old", Relay.PyVal.str k)]] =
      ⟨[],
        if !(ret == 0) then dictSet ids k ret else ids,
        some ⟨"",
          (match dictGet ids k with
            | some nid => if !(nid == 0) then (nid : Int) else 0
            | none => 0),
          "", "", "", -1⟩⟩ := by
  have hkb : (k == "") = false := by
    simp [hk]
  simp [Relay.handle_dbus_signal, Relay.get_notif_str, Relay.get_notif_int, dictGet,
    Relay.truthy, Relay.optWarn, hkb]

/-- C3: the relay's id map keeps at most one live entry per replace key.
Starting from any `NOTIF_IDS` with distinct keys, two consecutive requests
for the same non-empty key `k` (replace-id absent, hence 0), with the
desktop call returning the nonzero ids `r1` then `r2`: the second request
substitutes the remembered id `r1` as the forwarded replace target, and
afterwards the map holds exactly one entry for `k`, whose value is the
second call's returned id `r2`. -/
theorem C3_relay_dedup (ids : List (String × Nat)) (k : String) (r1 r2 : Nat)
    (hnodup : (dictKeys ids).Nodup) (hk : ¬(k = "")) (hr1 : ¬(r1 = 0)) (hr2 : ¬(r2 = 0)) :
    (Relay.handle_dbus_signal r2
        (Relay.handle_dbus_signal r1 ids
          [Relay.PyVal.dict [("replace_old", Relay.PyVal.str k)]]).notif_ids
        [Relay.PyVal.dict [("replace_old", Relay.PyVal.str k)]]).forwarded =
      some ⟨"", (r1 : Int), "", "", "", -1⟩ ∧
    dictGet (Relay.handle_dbus_signal r2
        (Relay.handle_dbus_signal r1 ids
          [Relay.PyVal.dict [("replace_old", Relay.PyVal.str k)]]).notif_ids
        [Relay.PyVal.dict [("replace_old", Relay.PyVal.str k)]]).notif_ids k = some r2 ∧
    ((Relay.handle_dbus_signal r2
        (Relay.handle_dbus_signal r1 ids
          [Relay.PyVal.dict [("replace_old", Relay.PyVal.str k)]]).notif_ids
        [Relay.PyVal.dict [("replace_old", Relay.PyVal.str k)]]).notif_ids.filter
      (fun e => e.1 == k)).length = 1 := by
  have hb1 : (!(r1 == 0)) = true := by
    simp [hr1]
  have hb2 : (!(r2 == 0)) = true := by
    simp [hr2]
  have hids1 : (Relay.handle_dbus_signal r1 ids
      [Relay.PyVal.dict [("replace_old", Relay.PyVal.str k)]]).notif_ids =
      dictSet ids k r1 := by
    rw [relay_handle_keyOnly r1 ids k hk]
    simp [hb1]
  rw [hids1, relay_handle_keyOnly r2 (dictSet ids k r1) k hk]
  refine ⟨?_, ?_, ?_⟩
  · simp [dictGet_dictSet_self, hb1]
  · simp [hb2, dictGet_dictSet_self]
  · simp only [hb2, if_pos]
    exact filter_key_dictSet_length (dictSet ids k r1) k r2
      (nodup_dictKeys_dictSet ids k r1 hnodup)

/-- C3 witness: two consecutive relay requests for the key `"svc"`. -/
theorem C3_relay_dedup_witness :
    (Relay.handle_dbus_signal 9
        (Relay.handle_dbus_signal 4 []
          [Relay.PyVal.dict [("replace_old", Relay.PyVal.str "svc")]]).notif_ids
        [Relay.PyVal.dict [("replace_old", Relay.PyVal.str "svc")]]).forwarded =
      some ⟨"", 4, "", "", "", -1⟩ ∧
    dictGet (Relay.handle_dbus_signal 9
        (Relay.handle_dbus_signal 4 []
          [Relay.PyVal.dict [("replace_old", Relay.PyVal.str "svc")]]).notif_ids
        [Relay.PyVal.dict [("replace_old", Relay.PyVal.str "svc")]]).notif_ids "svc" =
      some 9 := by
  have h := C3_relay_dedup [] "svc" 4 9 (by simp [dictKeys]) (by decide) (by decide)
    (by decide)
  exact ⟨h.1, h.2.1⟩

/-! ## C7 -/

/-- C7 counterexample: a malformed `replace_id` field of the wrong type
whose value is falsy (the empty string) is silently defaulted — no
warning is printed (`get_notif_int` only warns when the bad value is
truthy) — though delivery is still attempted with replace-id 0. This
refutes the claim's "with a warning logged" for every malformed field. -/
theorem C7_counterexample :
    (Relay.handle_dbus_signal 5 []
      [Relay.PyVal.dict [("replace_id", Relay.PyVal.str "")]]).warns = [] ∧
    (Relay.handle_dbus_signal 5 []
      [Relay.PyVal.dict [("replace_id", Relay.PyVal.str "")]]).forwarded =
      some ⟨"", 0, "", "", "", -1⟩ :=
  ⟨rfl, rfl⟩

/-- C7 (amended): a malformed field is individually replaced by its
default and never raises (the handler is total); a warning is logged when
the malformed value is truthy — in particular a negative `replace_id` is
warned about and treated exactly as if replace-id 0 (i.e. none) had been
supplied, and delivery of the notification is still attempted. -/
theorem C7_negative_replace_id (d : List (String × Relay.PyVal))
    (ids : List (String × Nat)) (ret : Nat) (n : Int)
    (h1 : dictGet d "replace_id" = some (Relay.PyVal.int n)) (h2 : n < 0) :
    ("Bad replace_id") ∈ (Relay.handle_dbus_signal ret ids [Relay.PyVal.dict d]).warns ∧
    (Relay.handle_dbus_signal ret ids [Relay.PyVal.dict d]).forwarded ≠ none ∧
    (Relay.handle_dbus_signal ret ids [Relay.PyVal.dict d]).forwarded =
      (Relay.handle_dbus_signal ret ids
        [Relay.PyVal.dict (dictSet d "replace_id" (Relay.PyVal.int 0))]).forwarded ∧
    (Relay.handle_dbus_signal ret ids [Relay.PyVal.dict d]).notif_ids =
      (Relay.handle_dbus_signal ret ids
        [Relay.PyVal.dict (dictSet d "replace_id" (Relay.PyVal.int 0))]).notif_ids := by
  have hn0 : ¬(0 ≤ n) := not_le.mpr h2
  have hne : (n == 0) = false := by
    simp only [beq_eq_false_iff_ne, ne_eq]
    exact Int.ne_of_lt h2
  have hrid : Relay.get_notif_int d "replace_id" 0 1 = (0, some "Bad replace_id") := by
    simp [Relay.get_notif_int, h1, hn0, Relay.truthy, hne]
  have hrid0 : Relay.get_notif_int (dictSet d "replace_id" (Relay.PyVal.int 0))
      "replace_id" 0 1 = (0, none) := by
    simp [Relay.get_notif_int, dictGet_dictSet_self]
  have hgs : ∀ key : String, ¬(key = "replace_id") →
      Relay.get_notif_str (dictSet d "replace_id" (Relay.PyVal.int 0)) key =
        Relay.get_notif_str d key := by
    intro key hk
    simp [Relay.get_notif_str, dictGet_dictSet_ne d "replace_id" key _ hk]
  have hgi : Relay.get_notif_int (dictSet d "replace_id" (Relay.PyVal.int 0))
      "timeout" (-1) 1000 = Relay.get_notif_int d "timeout" (-1) 1000 := by
    simp [Relay.get_notif_int,
      dictGet_dictSet_ne d "replace_id" "timeout" _ (by decide)]
  refine ⟨?_, ?_, ?_, ?_⟩
  · simp [Relay.handle_dbus_signal, hrid, Relay.optWarn]
  · simp [Relay.handle_dbus_signal]
  · simp only [Relay.handle_dbus_signal, hrid, hrid0, hgi,
      hgs "app_name" (by decide), hgs "replace_old" (by decide),
      hgs "app_icon" (by decide), hgs "summary" (by decide), hgs "body" (by decide)]
  · simp only [Relay.handle_dbus_signal, hrid, hrid0, hgi,
      hgs "app_name" (by decide), hgs "replace_old" (by decide),
      hgs "app_icon" (by decide), hgs "summary" (by decide), hgs "body" (by decide)]

/-- C7 witness: a request whose `replace_id` is `-3`. -/
theorem C7_negative_replace_id_witness :
    ("Bad replace_id") ∈ (Relay.handle_dbus_signal 5 []
      [Relay.PyVal.dict [("replace_id", Relay.PyVal.int (-3))]]).warns ∧
    (Relay.handle_dbus_signal 5 []
      [Relay.PyVal.dict [("replace_id", Relay.PyVal.int (-3))]]).forwarded ≠ none := by
  have h := C7_negative_replace_id [("replace_id", Relay.PyVal.int (-3))] [] 5 (-3)
    rfl (by decide)
  exact ⟨h.1, h.2.1⟩

/-! ## C8 -/

/-- C8 counterexample: a well-formed request with the non-negative integer
timeout 2 is forwarded with timeout 2000, not 2 — `get_notif_int` is
called with multiplier 1000, i.e. the request field is interpreted in
seconds and converted, not forwarded unchanged in milliseconds. -/
theorem C8_counterexample :
    (Relay.handle_dbus_signal 5 []
      [Relay.PyVal.dict [("timeout", Relay.PyVal.int 2)]]).forwarded =
      some ⟨"", 0, "", "", "", 2000⟩ :=
  rfl

/-- C8 (amended): a non-negative integer timeout `t` in the request is
forwarded as `t * 1000` (so `0` still means never auto-dismiss); a
missing or negative timeout is forwarded as the default `-1`. -/
theorem C8_timeout_scaled (d : List (String × Relay.PyVal)) (ids : List (String × Nat))
    (ret : Nat) :
    (∀ t : Int, dictGet d "timeout" = some (Relay.PyVal.int t) → 0 ≤ t →
      ((Relay.handle_dbus_signal ret ids [Relay.PyVal.dict d]).forwarded.map
        Relay.ForwardCall.timeout) = some (t * 1000)) ∧
    (dictGet d "timeout" = none →
      ((Relay.handle_dbus_signal ret ids [Relay.PyVal.dict d]).forwarded.map
        Relay.ForwardCall.timeout) = some (-1)) ∧
    (∀ t : Int, dictGet d "timeout" = some (Relay.PyVal.int t) → t < 0 →
      ((Relay.handle_dbus_signal ret ids [Relay.PyVal.dict d]).forwarded.map
        Relay.ForwardCall.timeout) = some (-1)) := by
  refine ⟨?_, ?_, ?_⟩
  · intro t ht hpos
    have hto : Relay.get_notif_int d "timeout" (-1) 1000 = (t * 1000, none) := by
      simp [Relay.get_notif_int, ht, hpos]
    simp [Relay.handle_dbus_signal, hto]
  · intro ht
    have hto : (Relay.get_notif_int d "timeout" (-1) 1000).1 = -1 := by
      simp [Relay.get_notif_int, ht, Relay.truthy]
    simp [Relay.handle_dbus_signal, hto]
  · intro t ht hneg
    have hto : (Relay.get_notif_int d "timeout" (-1) 1000).1 = -1 := by
      simp [Relay.get_notif_int, ht, not_le.mpr hneg]
    simp [Relay.handle_dbus_signal, hto]

/-- C8 witness: timeout 3 is forwarded as 3000; an absent timeout is
forwarded as -1. -/
theorem C8_timeout_scaled_witness :
    ((Relay.handle_dbus_signal 5 []
      [Relay.PyVal.dict [("timeout", Relay.PyVal.int 3)]]).forwarded.map
        Relay.ForwardCall.timeout) = some 3000 ∧
    ((Relay.handle_dbus_signal 5 [] [Relay.PyVal.dict []]).forwarded.map
        Relay.ForwardCall.timeout) = some (-1) :=
  ⟨(C8_timeout_scaled [("timeout", Relay.PyVal.int 3)] [] 5).1 3 rfl (by decide),
    (C8_timeout_scaled [] [] 5).2.1 rfl⟩

end SystemdSvcStatus
